import Mathlib

/-!
# Verification of the PRAiTEQx-MVP expert-routing layer

Shallow embedding of the repository's expert-selection, caching and API
logic, together with theorems settling the specification claims.

The sources embedded here:
* `config/model_config.py` — `MODEL_CONFIGS`, `EXPERT_SELECTION_RULES`;
* `src/models/expert_selector.py` — `ExpertSelector.analyze_query`,
  `ExpertSelector.select_experts`, `ExpertSelector.get_expert_prompt`;
* `src/models/ai_service.py` — `AIService.process_query`,
  `AIService._generate_cache_key` (with a full MD5 implementation
  standing in for Python's `hashlib.md5`);
* `src/api/app.py` — the `POST /query` endpoint.

Python floats are modelled with `ℚ`.  All scores computed by the program
are of the form `k/12`, `k/11` (0 ≤ k ≤ 12), `4/5` or `1/5`; distinct
rationals among these differ by at least `1/132`, far more than a double
ulp at that magnitude, so every comparison (`max` tie-breaking and the
`< 0.1` threshold) has the same outcome over IEEE doubles as over `ℚ`.

`ModelManager` (imported by `ai_service.py`) is not defined anywhere in
the repository, so response generation is an abstract, universally
quantified oracle (`GenOracle`); Python exceptions it may raise are
modelled through `Except`.
-/

namespace PRAiTEQx

/-! ## Strings: lowercasing, whitespace splitting, substring test

`query.lower()` is modelled per-character on ASCII (the keyword sets are
all ASCII lowercase); `query.split()` counts maximal runs of
non-whitespace; Python's `kw in s` is the substring relation. -/

/-- ASCII lowercasing of one character (model of `str.lower` on the
alphabet the keyword sets use). -/
def pyLowerChar (c : Char) : Char :=
  if 'A' ≤ c ∧ c ≤ 'Z' then Char.ofNat (c.toNat + 32) else c

/-- `query.lower()` as a list of characters. -/
def pyLower (s : String) : List Char := s.data.map pyLowerChar

/-- ASCII whitespace, as recognised by `str.split()`. -/
def pyIsSpace (c : Char) : Bool :=
  c = ' ' ∨ c = '\t' ∨ c = '\n' ∨ c = '\r' ∨ c = '\x0b' ∨ c = '\x0c'

/-- `len(query.split())`: the number of maximal non-whitespace runs. -/
def wordCount (s : String) : Nat :=
  (s.data.foldl
    (fun (st : Nat × Bool) c =>
      if pyIsSpace c then (st.1, false)
      else if st.2 then st else (st.1 + 1, true))
    (0, false)).1

/-- Python's `needle in hay` substring test on character lists. -/
def isSubstr : List Char → List Char → Bool
  | n, [] => n.isEmpty
  | n, c :: t => n.isPrefixOf (c :: t) || isSubstr n t

/-! ## `config/model_config.py` -/

/-- `ModelConfig` dataclass from `config/model_config.py`. -/
structure ModelConfig where
  name : String
  model_id : String
  expert_type : String
  load_in_4bit : Bool := true
  max_tokens : Nat := 2048
  temperature : ℚ := 7/10
  deriving Repr, DecidableEq

/-- `MODEL_CONFIGS` from `config/model_config.py`, in insertion order. -/
def MODEL_CONFIGS : List (String × ModelConfig) :=
  [ ("chat_expert",
      { name := "Qwen2.5 Chat Expert"
        model_id := "Qwen/Qwen2.5-7B-Instruct"
        expert_type := "chat_reasoning"
        max_tokens := 4096
        temperature := 7/10 }),
    ("code_expert",
      { name := "CodeLlama Programming Expert"
        model_id := "codellama/CodeLlama-7b-Instruct-hf"
        expert_type := "programming"
        max_tokens := 8192
        temperature := 1/10 }),
    ("creative_expert",
      { name := "Mistral Creative Expert"
        model_id := "mistralai/Mistral-7B-Instruct-v0.2"
        expert_type := "creative_writing"
        max_tokens := 4096
        temperature := 9/10 }),
    ("quick_expert",
      { name := "Gemma Quick Response Expert"
        model_id := "google/gemma-7b-it"
        expert_type := "quick_response"
        max_tokens := 1024
        temperature := 1/2 }),
    ("logic_expert",
      { name := "Phi-3 Logic Expert"
        model_id := "microsoft/Phi-3-mini-4k-instruct"
        expert_type := "logical_reasoning"
        max_tokens := 4096
        temperature := 3/10 }),
    ("search_expert",
      { name := "BGE Web Search Expert"
        model_id := "BAAI/bge-m3"
        expert_type := "web_retrieval"
        max_tokens := 512
        temperature := 1/10 }) ]

/-- `EXPERT_SELECTION_RULES` from `config/model_config.py`. -/
def EXPERT_SELECTION_RULES : List (String × List String) :=
  [ ("code", ["code_expert", "logic_expert"]),
    ("programming", ["code_expert", "logic_expert"]),
    ("creative", ["creative_expert", "chat_expert"]),
    ("writing", ["creative_expert", "chat_expert"]),
    ("quick", ["quick_expert"]),
    ("search", ["search_expert", "chat_expert"]),
    ("reasoning", ["logic_expert", "chat_expert"]),
    ("default", ["chat_expert"]) ]

/-- `self.rules.get(category, self.rules['default'])`. -/
def rulesGet (category : String) : List String :=
  match EXPERT_SELECTION_RULES.lookup category with
  | some l => l
  | none => (EXPERT_SELECTION_RULES.lookup "default").getD []

/-! ## `ExpertSelector.analyze_query` -/

def code_keywords : List String :=
  ["code", "python", "javascript", "function", "class", "algorithm",
   "programming", "debug", "error", "syntax", "api", "database"]

def creative_keywords : List String :=
  ["story", "poem", "creative", "write", "imagine", "fiction",
   "character", "plot", "narrative", "essay", "blog"]

def search_keywords : List String :=
  ["search", "find", "research", "latest", "current", "news",
   "information", "data", "facts", "recent", "today"]

def logic_keywords : List String :=
  ["analyze", "compare", "explain", "reasoning", "logic", "problem",
   "solution", "think", "calculate", "math", "statistics"]

/-- `sum(1 for kw in kws if kw in query_lower) / len(kws)`. -/
def kwScore (kws : List String) (queryLower : List Char) : ℚ :=
  (kws.countP (fun kw => isSubstr kw.data queryLower) : ℚ) / (kws.length : ℚ)

/-- The `code` score of a query. -/
def codeScore (query : String) : ℚ := kwScore code_keywords (pyLower query)

/-- The `creative` score of a query. -/
def creativeScore (query : String) : ℚ :=
  kwScore creative_keywords (pyLower query)

/-- The `search` score of a query. -/
def searchScore (query : String) : ℚ := kwScore search_keywords (pyLower query)

/-- The `reasoning` score of a query. -/
def reasoningScore (query : String) : ℚ :=
  kwScore logic_keywords (pyLower query)

/-- The `quick` score: `0.8` for queries of at most 5 words, else `0.2`. -/
def quickScore (query : String) : ℚ :=
  if wordCount query ≤ 5 then 4/5 else 1/5

/-- `ExpertSelector.analyze_query`: the returned dict in insertion
order. -/
def analyzeQuery (query : String) : List (String × ℚ) :=
  [ ("code", codeScore query),
    ("creative", creativeScore query),
    ("search", searchScore query),
    ("reasoning", reasoningScore query),
    ("quick", quickScore query) ]

/-! ## `ExpertSelector.select_experts` -/

/-- Python's `max(items, key=lambda x: x[1])` on a nonempty association
list: the running maximum is replaced only on a strict increase, so the
first item attaining the maximum wins. -/
def pyMax (x : String × ℚ) (xs : List (String × ℚ)) : String × ℚ :=
  xs.foldl (fun best y => if y.2 > best.2 then y else best) x

/-- `ExpertSelector.select_experts` (the `max_experts` argument is a
natural number; every call site passes 1 or 2). -/
def selectExperts (query : String) (maxExperts : Nat) : List String :=
  match analyzeQuery query with
  | [] => []
  | s :: ss =>
      let best := pyMax s ss
      let category := if best.2 < 1/10 then "default" else best.1
      (rulesGet category).take maxExperts

/-- `ExpertSelector.get_expert_prompt`. -/
def getExpertPrompt (expertType query : String) : String :=
  if expertType = "chat_expert" then
    "As an intelligent conversation assistant, answer this thoughtfully: " ++ query
  else if expertType = "code_expert" then
    "As a programming expert, provide clean, working code solution: " ++ query
  else if expertType = "creative_expert" then
    "As a creative writing specialist, craft an engaging response: " ++ query
  else if expertType = "quick_expert" then
    "Provide a concise, direct answer: " ++ query
  else if expertType = "logic_expert" then
    "Use logical reasoning and analysis to solve: " ++ query
  else if expertType = "search_expert" then
    "Research and provide factual information about: " ++ query
  else
    "Answer this query professionally: " ++ query

/-! ## MD5 (model of Python's `hashlib.md5`)

`AIService._generate_cache_key` hashes `f"{query}_{use_multi_expert}".encode()`
with MD5 and keeps the first 16 hex characters.  The standard MD5
algorithm (RFC 1321) is implemented here over `List Nat` bytes, with
32-bit overflow made explicit by `% 2^32`. -/

/-- UTF-8 encoding of one character (model of `str.encode()`). -/
def utf8Char (c : Char) : List Nat :=
  let n := c.toNat
  if n < 0x80 then [n]
  else if n < 0x800 then [0xC0 + n / 64, 0x80 + n % 64]
  else if n < 0x10000 then [0xE0 + n / 4096, 0x80 + n / 64 % 64, 0x80 + n % 64]
  else [0xF0 + n / 262144, 0x80 + n / 4096 % 64, 0x80 + n / 64 % 64, 0x80 + n % 64]

/-- UTF-8 bytes of a string. -/
def utf8Encode (s : String) : List Nat := (s.data.map utf8Char).flatten

/-- Bitwise complement on 32 bits. -/
def not32 (x : Nat) : Nat := 0xFFFFFFFF ^^^ x

/-- Left rotation on 32 bits. -/
def rotl32 (x s : Nat) : Nat :=
  ((x <<< s) ||| (x >>> (32 - s))) &&& 0xFFFFFFFF

/-- The 64 MD5 sine-derived round constants. -/
def md5K : List Nat :=
  [0xd76aa478, 0xe8c7b756, 0x242070db, 0xc1bdceee,
   0xf57c0faf, 0x4787c62a, 0xa8304613, 0xfd469501,
   0x698098d8, 0x8b44f7af, 0xffff5bb1, 0x895cd7be,
   0x6b901122, 0xfd987193, 0xa679438e, 0x49b40821,
   0xf61e2562, 0xc040b340, 0x265e5a51, 0xe9b6c7aa,
   0xd62f105d, 0x02441453, 0xd8a1e681, 0xe7d3fbc8,
   0x21e1cde6, 0xc33707d6, 0xf4d50d87, 0x455a14ed,
   0xa9e3e905, 0xfcefa3f8, 0x676f02d9, 0x8d2a4c8a,
   0xfffa3942, 0x8771f681, 0x6d9d6122, 0xfde5380c,
   0xa4beea44, 0x4bdecfa9, 0xf6bb4b60, 0xbebfbc70,
   0x289b7ec6, 0xeaa127fa, 0xd4ef3085, 0x04881d05,
   0xd9d4d039, 0xe6db99e5, 0x1fa27cf8, 0xc4ac5665,
   0xf4292244, 0x432aff97, 0xab9423a7, 0xfc93a039,
   0x655b59c3, 0x8f0ccc92, 0xffeff47d, 0x85845dd1,
   0x6fa87e4f, 0xfe2ce6e0, 0xa3014314, 0x4e0811a1,
   0xf7537e82, 0xbd3af235, 0x2ad7d2bb, 0xeb86d391]

/-- The 64 MD5 per-round left-rotation amounts. -/
def md5S : List Nat :=
  [7, 12, 17, 22, 7, 12, 17, 22, 7, 12, 17, 22, 7, 12, 17, 22,
   5, 9, 14, 20, 5, 9, 14, 20, 5, 9, 14, 20, 5, 9, 14, 20,
   4, 11, 16, 23, 4, 11, 16, 23, 4, 11, 16, 23, 4, 11, 16, 23,
   6, 10, 15, 21, 6, 10, 15, 21, 6, 10, 15, 21, 6, 10, 15, 21]

/-- The `j`-th little-endian 32-bit word of a 64-byte chunk. -/
def md5Word (chunk : List Nat) (j : Nat) : Nat :=
  chunk.getD (4 * j) 0 + 256 * chunk.getD (4 * j + 1) 0 +
    65536 * chunk.getD (4 * j + 2) 0 + 16777216 * chunk.getD (4 * j + 3) 0

/-- One MD5 compression of a 64-byte chunk into the running state. -/
def md5Compress (st : Nat × Nat × Nat × Nat) (chunk : List Nat) :
    Nat × Nat × Nat × Nat :=
  let r := (List.range 64).foldl
    (fun (s : Nat × Nat × Nat × Nat) i =>
      let (a, b, c, d) := s
      let fg : Nat × Nat :=
        if i < 16 then ((b &&& c) ||| (not32 b &&& d), i)
        else if i < 32 then ((d &&& b) ||| (not32 d &&& c), (5 * i + 1) % 16)
        else if i < 48 then (b ^^^ c ^^^ d, (3 * i + 5) % 16)
        else (c ^^^ (b ||| not32 d), (7 * i) % 16)
      let t := (fg.1 + a + md5K.getD i 0 + md5Word chunk fg.2) % 4294967296
      (d, (b + rotl32 t (md5S.getD i 0)) % 4294967296, b, c))
    st
  match st, r with
  | (a0, b0, c0, d0), (a, b, c, d) =>
      ((a0 + a) % 4294967296, (b0 + b) % 4294967296,
       (c0 + c) % 4294967296, (d0 + d) % 4294967296)

/-- MD5 padding: `0x80`, zeros to 56 mod 64, then the bit length as a
little-endian 64-bit integer. -/
def md5Pad (msg : List Nat) : List Nat :=
  let len := msg.length
  let zeros := (64 + 56 - (len + 1) % 64) % 64
  let bitLen := (8 * len) % 18446744073709551616
  msg ++ 0x80 :: List.replicate zeros 0 ++
    (List.range 8).map (fun i => bitLen / 256 ^ i % 256)

/-- Feed padded bytes through the compression function, buffering 64
bytes at a time (structural recursion, so the kernel can evaluate it). -/
def md5Absorb (msg : List Nat) : Nat × Nat × Nat × Nat :=
  let step := fun (s : (Nat × Nat × Nat × Nat) × List Nat) (b : Nat) =>
    let buf := s.2 ++ [b]
    if buf.length = 64 then (md5Compress s.1 buf, []) else (s.1, buf)
  ((md5Pad msg).foldl step ((0x67452301, 0xefcdab89, 0x98badcfe, 0x10325476), [])).1

/-- Little-endian bytes of a 32-bit word. -/
def le4 (w : Nat) : List Nat :=
  [w % 256, w / 256 % 256, w / 65536 % 256, w / 16777216 % 256]

/-- Lowercase hex digit. -/
def hexDigit (n : Nat) : Char := "0123456789abcdef".data.getD n '0'

/-- `hashlib.md5(bytes).hexdigest()` as a character list: 32 lowercase
hex characters. -/
def md5HexChars (msg : List Nat) : List Char :=
  match md5Absorb msg with
  | (a, b, c, d) =>
      ((le4 a ++ le4 b ++ le4 c ++ le4 d).map
        (fun b => [hexDigit (b / 16), hexDigit (b % 16)])).flatten

/-- `hashlib.md5(bytes).hexdigest()`. -/
def md5Hex (msg : List Nat) : String := String.mk (md5HexChars msg)

/-! ## `AIService` -/

/-- Python's `str` on a boolean. -/
def pyStrBool (b : Bool) : String := if b then "True" else "False"

/-- `AIService._generate_cache_key`:
`hashlib.md5(f"{query}_{use_multi_expert}".encode()).hexdigest()[:16]`. -/
def generateCacheKey (query : String) (useMultiExpert : Bool) : String :=
  let content := query ++ "_" ++ pyStrBool useMultiExpert
  String.mk ((md5HexChars (utf8Encode content)).take 16)

/-- The `result` dict built by `AIService.process_query`. -/
structure QueryResult where
  query : String
  response : String
  experts_used : List String
  response_type : String
  timestamp : ℚ
  success : Bool
  deriving Repr, DecidableEq

/-- `self.response_cache`: a Python dict, modelled as an association
list in insertion order (`process_query` only ever adds a binding for a
key that is absent, so appending at the end is exact). -/
abbrev Cache := List (String × QueryResult)

/-- A Python exception escaping `process_query`: either the `IndexError`
from `selected_experts[0]` on an empty selection, or an exception raised
inside the (absent) `ModelManager`. -/
inductive PyErr where
  | indexError
  | genError (msg : String)
  deriving Repr, DecidableEq

/-- `str(e)` for the modelled exceptions. -/
def PyErr.message : PyErr → String
  | .indexError => "list index out of range"
  | .genError msg => msg

/-- The `ModelManager` referenced by `ai_service.py` is not defined
anywhere in the repository, so its two methods are abstract oracles; an
`Except.error` models an exception raised during generation. -/
structure GenOracle where
  generate_response : String → String → Except String String
  multi_expert_consensus : List String → String → Except String String

/-- `AIService.process_query`.  `now` models
`asyncio.get_event_loop().time()`.  The returned pair is the outcome
(result or escaped exception) together with the response cache after the
call; every error path leaves the cache exactly as it was. -/
def processQuery (gen : GenOracle) (now : ℚ) (cache : Cache)
    (query : String) (useMultiExpert : Bool) :
    Except PyErr QueryResult × Cache :=
  let cacheKey := generateCacheKey query useMultiExpert
  match cache.lookup cacheKey with
  | some cached => (.ok cached, cache)
  | none =>
      let selected := selectExperts query (if useMultiExpert then 2 else 1)
      let resp : Except PyErr (String × String) :=
        if selected.length > 1 ∧ useMultiExpert then
          match gen.multi_expert_consensus selected query with
          | .ok r => .ok (r, "multi_expert")
          | .error e => .error (.genError e)
        else
          match selected with
          | [] => .error .indexError
          | e0 :: _ =>
              match gen.generate_response e0 (getExpertPrompt e0 query) with
              | .ok r => .ok (r, "single_expert")
              | .error e => .error (.genError e)
      match resp with
      | .error e => (.error e, cache)
      | .ok (response, responseType) =>
          let result : QueryResult :=
            { query := query, response := response, experts_used := selected,
              response_type := responseType, timestamp := now, success := true }
          (.ok result, cache ++ [(cacheKey, result)])

/-! ## `src/api/app.py`: the `POST /query` endpoint -/

/-- The request body accepted by `POST /query`. -/
structure QueryRequest where
  query : String
  use_multi_expert : Bool := true
  max_experts : Int := 2
  deriving Repr, DecidableEq

/-- The 200 response body of `POST /query`. -/
structure QueryResponse where
  success : Bool
  query : String
  response : String
  experts_used : List String
  response_type : String
  processing_time : ℚ
  timestamp : ℚ
  deriving Repr, DecidableEq

/-- The `POST /query` handler: it invokes `AIService.process_query`
exactly once (no retry) and catches any exception `e`, turning it into
`HTTPException(status_code=500, detail=f"Internal server error: {str(e)}")`,
modelled as an `Except.error` carrying the status code and detail. -/
def postQuery (gen : GenOracle) (now processingTime : ℚ) (cache : Cache)
    (req : QueryRequest) : Except (Nat × String) QueryResponse × Cache :=
  match processQuery gen now cache req.query req.use_multi_expert with
  | (.ok r, c) =>
      (.ok { success := r.success, query := r.query, response := r.response,
             experts_used := r.experts_used, response_type := r.response_type,
             processing_time := processingTime, timestamp := r.timestamp }, c)
  | (.error e, c) =>
      (.error (500, "Internal server error: " ++ e.message), c)

/-! ## Spec-side definitions

These follow the words of the specification claims, to be compared with
the definitions embedded from the source above. -/

/-- The first category in the order code, creative, search, reasoning,
quick whose score is at least every other score: "the category whose
analysis score is highest, ties broken by that fixed order". -/
def claimBest5 (co cr se re qu : ℚ) : String :=
  if co ≥ cr ∧ co ≥ se ∧ co ≥ re ∧ co ≥ qu then "code"
  else if cr ≥ se ∧ cr ≥ re ∧ cr ≥ qu then "creative"
  else if se ≥ re ∧ se ≥ qu then "search"
  else if re ≥ qu then "reasoning"
  else "quick"

/-- The category claim C1 designates for a query. -/
def claimBestCategory (query : String) : String :=
  claimBest5 (codeScore query) (creativeScore query) (searchScore query)
    (reasoningScore query) (quickScore query)

/-- The cache key as claim C4 words it: the first 16 hexadecimal
characters of the MD5 digest of the string formed by the query, an
underscore, and the textual form of the flag. -/
def cacheKeySpec (query : String) (flag : Bool) : String :=
  String.mk (List.take 16
    (md5HexChars (utf8Encode (query ++ "_" ++ (if flag then "True" else "False")))))

/-! ## Concrete instances used by the witnesses -/

/-- An oracle whose generation always succeeds. -/
def trivialOracle : GenOracle :=
  ⟨fun _ _ => .ok "generated", fun _ _ => .ok "generated"⟩

/-- An oracle whose generation always raises (as the absent
`ModelManager` would). -/
def failingOracle : GenOracle :=
  ⟨fun _ _ => .error "boom", fun _ _ => .error "boom"⟩

/-- A concrete stored result. -/
def sampleResult : QueryResult :=
  { query := "hi", response := "cached", experts_used := ["quick_expert"],
    response_type := "single_expert", timestamp := 0, success := true }

/-- A cache holding `sampleResult` under the actual cache key of the
query `"hi"` in single-expert mode (`md5("hi_False")[:16]`). -/
def cachedEntry : Cache := [("c722eab4c6b855cc", sampleResult)]

/-! ## Supporting lemmas -/

lemma quickScore_ge (q : String) : 1/5 ≤ quickScore q := by
  unfold quickScore; split <;> norm_num

set_option maxHeartbeats 2000000 in
/-- Python's first-wins `max` over the five scored categories agrees
with the first-in-order argmax `claimBest5`, and its value is at least
the `quick` score. -/
lemma pyMax5 (co cr se re qu : ℚ) :
    pyMax ("code", co) [("creative", cr), ("search", se), ("reasoning", re), ("quick", qu)] =
      (claimBest5 co cr se re qu,
        (pyMax ("code", co)
          [("creative", cr), ("search", se), ("reasoning", re), ("quick", qu)]).2) ∧
    qu ≤ (pyMax ("code", co)
      [("creative", cr), ("search", se), ("reasoning", re), ("quick", qu)]).2 := by
  simp only [pyMax, List.foldl, claimBest5]
  split_ifs <;>
    (dsimp only at *;
     first
      | (constructor <;> first | rfl | linarith)
      | (exfalso;
         (try simp only [not_and_or, not_le, not_lt] at *);
         (try casesm* _ ∧ _);
         (try casesm* _ ∨ _) <;> linarith))

/-- `select_experts` always takes the high-confidence path and returns
the selection table's row for the argmax category, truncated. -/
lemma select_eq_claim (q : String) (m : Nat) :
    selectExperts q m = (rulesGet (claimBestCategory q)).take m := by
  obtain ⟨h1, h2⟩ := pyMax5 (codeScore q) (creativeScore q) (searchScore q)
    (reasoningScore q) (quickScore q)
  have hq := quickScore_ge q
  simp only [selectExperts, analyzeQuery]
  rw [if_neg (by linarith : ¬ (pyMax ("code", codeScore q)
      [("creative", creativeScore q), ("search", searchScore q),
       ("reasoning", reasoningScore q), ("quick", quickScore q)]).2 < 1/10)]
  rw [show (pyMax ("code", codeScore q)
      [("creative", creativeScore q), ("search", searchScore q),
       ("reasoning", reasoningScore q), ("quick", quickScore q)]).1 =
      claimBestCategory q from congrArg Prod.fst h1]

/-- The argmax category is one of the five scored categories. -/
lemma claimBest_cases (q : String) :
    claimBestCategory q = "code" ∨ claimBestCategory q = "creative" ∨
    claimBestCategory q = "search" ∨ claimBestCategory q = "reasoning" ∨
    claimBestCategory q = "quick" := by
  unfold claimBestCategory claimBest5
  split_ifs <;> simp

/-- `isSubstr` decides exactly the infix (Python substring) relation. -/
lemma isSubstr_correct (n h : List Char) : isSubstr n h = true ↔ n <:+: h := by
  induction h with
  | nil => simp [isSubstr, List.isEmpty_iff]
  | cons c t ih =>
      simp only [isSubstr, Bool.or_eq_true, ih, List.infix_cons_iff,
        List.isPrefixOf_iff_prefix]

/-- A substring of `h` is a substring of `h ++ t`. -/
lemma isSubstr_append_right {n h : List Char} (t : List Char)
    (hs : isSubstr n h = true) : isSubstr n (h ++ t) = true := by
  rw [isSubstr_correct] at hs ⊢
  exact hs.trans ((List.prefix_append h t).isInfix)

/-- A string contains itself preceded by anything. -/
lemma isSubstr_append_left (p n : List Char) : isSubstr n (p ++ n) = true := by
  rw [isSubstr_correct]
  exact (List.suffix_append p n).isInfix

/-- A cache binding survives appending further bindings. -/
lemma lookup_append_some {c₁ c₂ : Cache} {k : String} {v : QueryResult}
    (h : c₁.lookup k = some v) : (c₁ ++ c₂).lookup k = some v := by
  rw [List.lookup_append, h, Option.or]

/-- Looking up past bindings that miss falls through to the appended
ones. -/
lemma lookup_append_none {c₁ c₂ : Cache} {k : String}
    (h : c₁.lookup k = none) : (c₁ ++ c₂).lookup k = c₂.lookup k := by
  rw [List.lookup_append, h, Option.none_or]

lemma rulesGet_code : rulesGet "code" = ["code_expert", "logic_expert"] := rfl

lemma rulesGet_creative : rulesGet "creative" = ["creative_expert", "chat_expert"] := rfl

lemma rulesGet_search : rulesGet "search" = ["search_expert", "chat_expert"] := rfl

lemma rulesGet_reasoning : rulesGet "reasoning" = ["logic_expert", "chat_expert"] := rfl

lemma rulesGet_quick : rulesGet "quick" = ["quick_expert"] := rfl

/-- With at least one expert requested, the selection is never empty. -/
lemma selectExperts_ne_nil (q : String) (m : Nat) (hm : 1 ≤ m) :
    selectExperts q m ≠ [] := by
  rw [select_eq_claim]
  obtain ⟨n, rfl⟩ : ∃ n, m = n + 1 := ⟨m - 1, by omega⟩
  rcases claimBest_cases q with h | h | h | h | h <;>
    simp [h, rulesGet_code, rulesGet_creative, rulesGet_search,
      rulesGet_reasoning, rulesGet_quick]

/-- The hex digest always has 32 characters. -/
lemma md5HexChars_length (m : List Nat) : (md5HexChars m).length = 32 := by
  rw [md5HexChars]
  rcases hab : md5Absorb m with ⟨a, b, c, d⟩
  simp [le4, List.length_flatten]

/-- `process_query` leaves the cache untouched on every error path. -/
lemma processQuery_error_cache (gen : GenOracle) (now : ℚ) (cache : Cache)
    (q : String) (b : Bool) (e : PyErr)
    (h : (processQuery gen now cache q b).1 = .error e) :
    processQuery gen now cache q b = (.error e, cache) := by
  revert h
  simp only [processQuery]
  cases hl : cache.lookup (generateCacheKey q b) with
  | some v => simp
  | none =>
      by_cases hif : (selectExperts q (if b then 2 else 1)).length > 1 ∧ b = true
      · rw [if_pos hif]
        cases hgen : gen.multi_expert_consensus
            (selectExperts q (if b then 2 else 1)) q <;> simp [hgen]
      · rw [if_neg hif]
        cases hsel : selectExperts q (if b then 2 else 1) with
        | nil => simp
        | cons e0 rest =>
            cases hgen : gen.generate_response e0 (getExpertPrompt e0 q) <;>
              simp [hgen]

/-- `"hi"` has at most 5 words, so its quick score is 0.8. -/
lemma quickScore_hi : quickScore "hi" = 4/5 := by
  unfold quickScore
  rw [if_pos (show wordCount "hi" ≤ 5 by decide)]

/-- Six repetitions of `"hi"` exceed 5 words, so the quick score is 0.2. -/
lemma quickScore_hi6 : quickScore "hi hi hi hi hi hi" = 1/5 := by
  unfold quickScore
  rw [if_neg (show ¬ wordCount "hi hi hi hi hi hi" ≤ 5 by decide)]

lemma codeScore_hi : codeScore "hi" = 0 := by
  unfold codeScore kwScore
  norm_num [show code_keywords.countP
    (fun kw => isSubstr kw.data (pyLower "hi")) = 0 from by decide]

lemma creativeScore_hi : creativeScore "hi" = 0 := by
  unfold creativeScore kwScore
  norm_num [show creative_keywords.countP
    (fun kw => isSubstr kw.data (pyLower "hi")) = 0 from by decide]

lemma searchScore_hi : searchScore "hi" = 0 := by
  unfold searchScore kwScore
  norm_num [show search_keywords.countP
    (fun kw => isSubstr kw.data (pyLower "hi")) = 0 from by decide]

lemma reasoningScore_hi : reasoningScore "hi" = 0 := by
  unfold reasoningScore kwScore
  norm_num [show logic_keywords.countP
    (fun kw => isSubstr kw.data (pyLower "hi")) = 0 from by decide]

lemma claimBest_hi : claimBestCategory "hi" = "quick" := by
  unfold claimBestCategory claimBest5
  rw [codeScore_hi, creativeScore_hi, searchScore_hi, reasoningScore_hi,
    quickScore_hi]
  norm_num

lemma selectExperts_hi : selectExperts "hi" 1 = ["quick_expert"] := by
  rw [select_eq_claim, claimBest_hi, rulesGet_quick]
  rfl

/-- On an empty cache and a failing oracle, processing `"hi"` in
single-expert mode propagates the generation exception. -/
lemma processQuery_hi_fails :
    (processQuery failingOracle 0 [] "hi" false).1 =
      .error (.genError "boom") := by
  simp [processQuery, selectExperts_hi, failingOracle]

/-! ## Claim theorems -/

/-- C1: for every query and every `max_experts ≥ 1`, `select_experts`
picks the category whose analysis score is highest (ties broken by the
fixed order code, creative, search, reasoning, quick), looks that
category up in the static `EXPERT_SELECTION_RULES` table, and returns
the first `min(max_experts, row length)` expert identifiers of that
row, in table order. -/
theorem C1_select_experts (q : String) (m : Nat) (_hm : 1 ≤ m) :
    ∃ row, EXPERT_SELECTION_RULES.lookup (claimBestCategory q) = some row ∧
      selectExperts q m = row.take m ∧
      (selectExperts q m).length = min m row.length := by
  have hsel := select_eq_claim q m
  rcases claimBest_cases q with h | h | h | h | h <;>
    rw [h] at hsel ⊢ <;>
    simp only [rulesGet_code, rulesGet_creative, rulesGet_search,
      rulesGet_reasoning, rulesGet_quick] at hsel <;>
    exact ⟨_, rfl, hsel, by rw [hsel]; simp [List.length_take]⟩

/-- Witness for C1 at the query `"hi"` with `max_experts = 1`. -/
theorem C1_witness : 1 ≤ (1 : Nat) ∧
    ∃ row, EXPERT_SELECTION_RULES.lookup (claimBestCategory "hi") = some row ∧
      selectExperts "hi" 1 = row.take 1 ∧
      (selectExperts "hi" 1).length = min 1 row.length :=
  ⟨by decide, C1_select_experts "hi" 1 (by decide)⟩

/-- C10: in single-expert mode (`max_experts = 1`) the selected expert
is never `chat_expert`: it is always one of `code_expert`,
`creative_expert`, `search_expert`, `logic_expert`, `quick_expert`. -/
theorem C10_never_chat (q : String) :
    selectExperts q 1 ∈ [["code_expert"], ["creative_expert"], ["search_expert"],
      ["logic_expert"], ["quick_expert"]] ∧
    "chat_expert" ∉ selectExperts q 1 := by
  rw [select_eq_claim]
  rcases claimBest_cases q with h | h | h | h | h <;> rw [h] <;> decide

/-- C6: every identifier ever returned by `select_experts` is a key of
`MODEL_CONFIGS`, and `MODEL_CONFIGS` holds exactly the six named expert
profiles. -/
theorem C6_six_experts (q : String) (m : Nat) (_hm : 1 ≤ m) :
    (∀ e ∈ selectExperts q m, (MODEL_CONFIGS.lookup e).isSome) ∧
    MODEL_CONFIGS.map Prod.fst =
      ["chat_expert", "code_expert", "creative_expert", "quick_expert",
       "logic_expert", "search_expert"] := by
  refine ⟨fun e he => ?_, rfl⟩
  rw [select_eq_claim] at he
  have h2 : e ∈ rulesGet (claimBestCategory q) := (List.take_prefix _ _).subset he
  rcases claimBest_cases q with h | h | h | h | h <;>
    rw [h] at h2 <;>
    simp only [rulesGet_code, rulesGet_creative, rulesGet_search,
      rulesGet_reasoning, rulesGet_quick] at h2 <;>
    fin_cases h2 <;> decide

/-- Witness for C6 at the query `"hi"` with `max_experts = 1`. -/
theorem C6_witness : 1 ≤ (1 : Nat) ∧
    ((∀ e ∈ selectExperts "hi" 1, (MODEL_CONFIGS.lookup e).isSome) ∧
      MODEL_CONFIGS.map Prod.fst =
        ["chat_expert", "code_expert", "creative_expert", "quick_expert",
         "logic_expert", "search_expert"]) :=
  ⟨by decide, C6_six_experts "hi" 1 (by decide)⟩

/-- C8: the quick score is at least 0.2, so the maximum analysis score
never falls below the 0.1 low-confidence threshold, the `'default'`
fallback of `select_experts` is unreachable, the selection is non-empty
whenever at least one expert is requested, and the
`selected_experts[0]` access inside `process_query` can never raise. -/
theorem C8_no_fallback (q : String) (gen : GenOracle) (now : ℚ) (cache : Cache)
    (b : Bool) (m : Nat) (hm : 1 ≤ m) :
    1/5 ≤ quickScore q ∧ claimBestCategory q ≠ "default" ∧
    selectExperts q m ≠ [] ∧
    (processQuery gen now cache q b).1 ≠ Except.error PyErr.indexError := by
  refine ⟨quickScore_ge q, ?_, selectExperts_ne_nil q m hm, ?_⟩
  · rcases claimBest_cases q with h | h | h | h | h <;> simp [h]
  · have h1 : (1 : Nat) ≤ if b then 2 else 1 := by cases b <;> norm_num
    have hne := selectExperts_ne_nil q (if b then 2 else 1) h1
    simp only [processQuery]
    cases hl : cache.lookup (generateCacheKey q b) with
    | some v => simp [hl]
    | none =>
        simp only [hl]
        by_cases hif : (selectExperts q (if b then 2 else 1)).length > 1 ∧ b = true
        · rw [if_pos hif]
          cases hgen : gen.multi_expert_consensus
            (selectExperts q (if b then 2 else 1)) q <;> simp [hgen]
        · rw [if_neg hif]
          cases hsel : selectExperts q (if b then 2 else 1) with
          | nil => exact absurd hsel hne
          | cons e0 rest =>
              cases hgen : gen.generate_response e0 (getExpertPrompt e0 q) <;>
                simp [hsel, hgen]

/-- Witness for C8 at the query `"hi"`. -/
theorem C8_witness : 1 ≤ (1 : Nat) ∧
    (1/5 ≤ quickScore "hi" ∧ claimBestCategory "hi" ≠ "default" ∧
      selectExperts "hi" 1 ≠ [] ∧
      (processQuery trivialOracle 0 [] "hi" false).1 ≠
        Except.error PyErr.indexError) :=
  ⟨by decide, C8_no_fallback "hi" trivialOracle 0 [] false 1 (by decide)⟩

/-- C2 as stated is false: the `quick` score is not computed from any
fixed keyword set.  No keyword set can score `"hi"` (one word, quick
score 0.8) strictly higher than `"hi hi hi hi hi hi"` (six words, quick
score 0.2), because every keyword occurring in the former occurs in the
latter. -/
theorem C2_counterexample :
    ¬ ∃ quickSet : List String, ∀ q : String,
        (analyzeQuery q).lookup "quick" =
          some ((quickSet.countP (fun kw => isSubstr kw.data (pyLower q)) : ℚ) /
            (quickSet.length : ℚ)) := by
  rintro ⟨K, hK⟩
  have h1 := hK "hi"
  have h2 := hK "hi hi hi hi hi hi"
  have e1 : (analyzeQuery "hi").lookup "quick" = some (quickScore "hi") := rfl
  have e2 : (analyzeQuery "hi hi hi hi hi hi").lookup "quick" =
      some (quickScore "hi hi hi hi hi hi") := rfl
  rw [e1, quickScore_hi] at h1
  rw [e2, quickScore_hi6] at h2
  have hc1 : ((K.countP (fun kw => isSubstr kw.data (pyLower "hi")) : ℚ) /
      (K.length : ℚ)) = 4/5 := (Option.some_inj.mp h1).symm
  have hc2 : ((K.countP (fun kw => isSubstr kw.data (pyLower "hi hi hi hi hi hi")) : ℚ) /
      (K.length : ℚ)) = 1/5 := (Option.some_inj.mp h2).symm
  have hsplit : pyLower "hi hi hi hi hi hi" =
      pyLower "hi" ++ (" hi hi hi hi hi".data.map pyLowerChar) := by decide
  have hmono : K.countP (fun kw => isSubstr kw.data (pyLower "hi")) ≤
      K.countP (fun kw => isSubstr kw.data (pyLower "hi hi hi hi hi hi")) := by
    refine List.countP_mono_left (fun kw _ hsub => ?_)
    rw [hsplit]
    exact isSubstr_append_right _ hsub
  rcases K with _ | ⟨kw0, Krest⟩
  · norm_num at hc1
  · have hk : (0 : ℚ) < ((kw0 :: Krest).length : ℚ) := by
      exact_mod_cast Nat.succ_pos Krest.length
    rw [div_eq_iff (ne_of_gt hk)] at hc1 hc2
    have hmq : ((kw0 :: Krest).countP
        (fun kw => isSubstr kw.data (pyLower "hi")) : ℚ) ≤
        ((kw0 :: Krest).countP
          (fun kw => isSubstr kw.data (pyLower "hi hi hi hi hi hi")) : ℚ) := by
      exact_mod_cast hmono
    linarith

/-- C2 amended: `analyze_query` returns exactly the five categories
code, creative, search, reasoning, quick; the first four are scored as
the number of that category's keywords occurring as substrings of the
lowercased query divided by the keyword-set size (12, 11, 11, 11), while
the fifth, `quick`, is not keyword-based: it is 0.8 for queries of at
most 5 words and 0.2 otherwise. -/
theorem C2_analyze_query_amended (q : String) :
    (analyzeQuery q).map Prod.fst = ["code", "creative", "search", "reasoning", "quick"] ∧
    (analyzeQuery q).lookup "code" =
      some ((code_keywords.countP (fun kw => isSubstr kw.data (pyLower q)) : ℚ) / 12) ∧
    (analyzeQuery q).lookup "creative" =
      some ((creative_keywords.countP (fun kw => isSubstr kw.data (pyLower q)) : ℚ) / 11) ∧
    (analyzeQuery q).lookup "search" =
      some ((search_keywords.countP (fun kw => isSubstr kw.data (pyLower q)) : ℚ) / 11) ∧
    (analyzeQuery q).lookup "reasoning" =
      some ((logic_keywords.countP (fun kw => isSubstr kw.data (pyLower q)) : ℚ) / 11) ∧
    (analyzeQuery q).lookup "quick" = some (if wordCount q ≤ 5 then (4:ℚ)/5 else 1/5) ∧
    code_keywords.length = 12 ∧ creative_keywords.length = 11 ∧
    search_keywords.length = 11 ∧ logic_keywords.length = 11 := by
  refine ⟨rfl, ?_, ?_, ?_, ?_, rfl, rfl, rfl, rfl, rfl⟩
  · show some (codeScore q) = _
    rw [Option.some_inj, codeScore, kwScore,
      show ((code_keywords.length : ℚ)) = 12 by norm_num [code_keywords]]
  · show some (creativeScore q) = _
    rw [Option.some_inj, creativeScore, kwScore,
      show ((creative_keywords.length : ℚ)) = 11 by norm_num [creative_keywords]]
  · show some (searchScore q) = _
    rw [Option.some_inj, searchScore, kwScore,
      show ((search_keywords.length : ℚ)) = 11 by norm_num [search_keywords]]
  · show some (reasoningScore q) = _
    rw [Option.some_inj, reasoningScore, kwScore,
      show ((logic_keywords.length : ℚ)) = 11 by norm_num [logic_keywords]]

/-- C3: `process_query` never evicts — every binding present in the
response cache before a call is still present, unchanged, afterwards,
and the cache size never decreases. -/
theorem C3_no_eviction (gen : GenOracle) (now : ℚ) (cache : Cache)
    (q : String) (b : Bool) :
    (∀ k v, cache.lookup k = some v →
      ((processQuery gen now cache q b).2).lookup k = some v) ∧
    cache.length ≤ ((processQuery gen now cache q b).2).length := by
  simp only [processQuery]
  cases hl : cache.lookup (generateCacheKey q b) with
  | some v => simp [hl]
  | none =>
      simp only [hl]
      by_cases hif : (selectExperts q (if b then 2 else 1)).length > 1 ∧ b = true
      · rw [if_pos hif]
        cases hgen : gen.multi_expert_consensus
            (selectExperts q (if b then 2 else 1)) q with
        | error e => simp [hgen]
        | ok r =>
            simp only [hgen]
            exact ⟨fun k v hv => lookup_append_some hv, by simp⟩
      · rw [if_neg hif]
        cases hsel : selectExperts q (if b then 2 else 1) with
        | nil => simp
        | cons e0 rest =>
            cases hgen : gen.generate_response e0 (getExpertPrompt e0 q) with
            | error e => simp [hgen]
            | ok r =>
                simp only [hgen]
                exact ⟨fun k v hv => lookup_append_some hv, by simp⟩

/-- Witness for C3: a pre-existing binding survives a `process_query`
call that adds a new entry. -/
theorem C3_witness :
    ([("k", sampleResult)] : Cache).lookup "k" = some sampleResult ∧
    ((processQuery trivialOracle 0 [("k", sampleResult)] "hi" false).2).lookup "k" =
      some sampleResult ∧
    ([("k", sampleResult)] : Cache).length ≤
      ((processQuery trivialOracle 0 [("k", sampleResult)] "hi" false).2).length := by
  have h : ([("k", sampleResult)] : Cache).lookup "k" = some sampleResult := rfl
  exact ⟨h,
    (C3_no_eviction trivialOracle 0 [("k", sampleResult)] "hi" false).1 "k"
      sampleResult h,
    (C3_no_eviction trivialOracle 0 [("k", sampleResult)] "hi" false).2⟩

set_option maxRecDepth 10000 in
/-- C4: the cache key is the first 16 hexadecimal characters of the MD5
digest of the query, an underscore, and the textual form of the
multi-expert flag (`"True"`/`"False"`), checked structurally against the
claim's wording and concretely against `hashlib.md5` reference values. -/
theorem C4_cache_key :
    (∀ q b, generateCacheKey q b = cacheKeySpec q b) ∧
    (∀ q b, (generateCacheKey q b).length = 16) ∧
    generateCacheKey "hi" false = "c722eab4c6b855cc" ∧
    generateCacheKey "hello" true = "91dcdab236221fae" := by
  refine ⟨fun q b => rfl, fun q b => ?_, by decide, by decide⟩
  rw [generateCacheKey]
  simp [String.length, List.length_take, md5HexChars_length]

/-- C5: a call whose cache key is already bound returns exactly the
stored result and leaves the cache unchanged; consequently, once a call
returns a result, an immediately following call with the same query and
flag (any oracle, any clock) returns that very result and the same
cache. -/
theorem C5_cache_hit (gen : GenOracle) (now : ℚ) (cache : Cache)
    (q : String) (b : Bool) :
    (∀ r, cache.lookup (generateCacheKey q b) = some r →
        processQuery gen now cache q b = (.ok r, cache)) ∧
    (∀ gen2 now2 r c1, processQuery gen now cache q b = (.ok r, c1) →
        processQuery gen2 now2 c1 q b = (.ok r, c1)) := by
  constructor
  · intro r hr
    simp [processQuery, hr]
  · intro gen2 now2 r c1 h
    cases hl : cache.lookup (generateCacheKey q b) with
    | some v =>
        have h1 : processQuery gen now cache q b = (.ok v, cache) := by
          simp [processQuery, hl]
        rw [h1] at h
        simp only [Prod.mk.injEq, Except.ok.injEq] at h
        obtain ⟨rfl, rfl⟩ := h
        simp [processQuery, hl]
    | none =>
        simp only [processQuery, hl] at h
        by_cases hif : (selectExperts q (if b then 2 else 1)).length > 1 ∧ b = true
        · rw [if_pos hif] at h
          cases hgen : gen.multi_expert_consensus
              (selectExperts q (if b then 2 else 1)) q with
          | error e => rw [hgen] at h; simp at h
          | ok resp =>
              rw [hgen] at h
              simp only [Prod.mk.injEq, Except.ok.injEq] at h
              obtain ⟨hr, hc⟩ := h
              have hkey : c1.lookup (generateCacheKey q b) = some r := by
                rw [← hc, lookup_append_none hl, ← hr]
                simp
              simp [processQuery, hkey]
        · rw [if_neg hif] at h
          cases hsel : selectExperts q (if b then 2 else 1) with
          | nil => rw [hsel] at h; simp at h
          | cons e0 rest =>
              rw [hsel] at h
              dsimp only at h
              cases hgen : gen.generate_response e0 (getExpertPrompt e0 q) with
              | error e => rw [hgen] at h; simp at h
              | ok resp =>
                  rw [hgen] at h
                  simp only [Prod.mk.injEq, Except.ok.injEq] at h
                  obtain ⟨hr, hc⟩ := h
                  have hkey : c1.lookup (generateCacheKey q b) = some r := by
                    rw [← hc, lookup_append_none hl, ← hr]
                    simp
                  simp [processQuery, hkey]

set_option maxRecDepth 10000 in
/-- Witness for C5: a hit on the real cache key of `"hi"` returns the
stored result unchanged, and a repeated call (different oracle and
clock) returns the same. -/
theorem C5_witness :
    cachedEntry.lookup (generateCacheKey "hi" false) = some sampleResult ∧
    processQuery trivialOracle 0 cachedEntry "hi" false = (.ok sampleResult, cachedEntry) ∧
    processQuery failingOracle 7 cachedEntry "hi" false = (.ok sampleResult, cachedEntry) := by
  have h : cachedEntry.lookup (generateCacheKey "hi" false) = some sampleResult := by
    rw [show generateCacheKey "hi" false = "c722eab4c6b855cc" from by decide]
    rfl
  refine ⟨h, (C5_cache_hit trivialOracle 0 cachedEntry "hi" false).1 sampleResult h, ?_⟩
  exact (C5_cache_hit trivialOracle 0 cachedEntry "hi" false).2 failingOracle 7
    sampleResult cachedEntry
    ((C5_cache_hit trivialOracle 0 cachedEntry "hi" false).1 sampleResult h)

/-- C7: if processing the query raises, the `POST /query` handler
responds with HTTP 500, the detail contains the exception's message,
and the cache is left as it was — no retry or other recovery happens
(the handler consumes a single `process_query` outcome by
construction). -/
theorem C7_error_500 (gen : GenOracle) (now pt : ℚ) (cache : Cache)
    (req : QueryRequest) (e : PyErr)
    (h : (processQuery gen now cache req.query req.use_multi_expert).1 = .error e) :
    postQuery gen now pt cache req =
      (.error (500, "Internal server error: " ++ e.message), cache) ∧
    isSubstr e.message.data ("Internal server error: " ++ e.message).data = true := by
  constructor
  · rw [postQuery,
      processQuery_error_cache gen now cache req.query req.use_multi_expert e h]
  · rw [String.data_append]
    exact isSubstr_append_left _ _

/-- Witness for C7: a failing oracle on a fresh cache yields a 500 with
the exception's message in the detail. -/
theorem C7_witness :
    (processQuery failingOracle 0 [] "hi" false).1 =
      .error (.genError "boom") ∧
    (postQuery failingOracle 0 0 [] ⟨"hi", false, 2⟩ =
      (.error (500, "Internal server error: " ++ (PyErr.genError "boom").message), []) ∧
    isSubstr (PyErr.genError "boom").message.data
      ("Internal server error: " ++ (PyErr.genError "boom").message).data = true) :=
  ⟨processQuery_hi_fails,
    C7_error_500 failingOracle 0 0 [] ⟨"hi", false, 2⟩ (.genError "boom")
      processQuery_hi_fails⟩

/-- C9: the `max_experts` field of the request body never influences the
endpoint's behaviour — two requests differing only in `max_experts`
produce identical responses and identical cache states. -/
theorem C9_max_experts_ignored (gen : GenOracle) (now pt : ℚ) (cache : Cache)
    (q : String) (b : Bool) (m1 m2 : Int) :
    postQuery gen now pt cache ⟨q, b, m1⟩ = postQuery gen now pt cache ⟨q, b, m2⟩ := rfl

end PRAiTEQx
